import Mathlib

/-!
Shallow embedding of the `vibe-books` repository (src/app.py, src/read_book.py).

The program is a pipeline: a text-completion API produces a ten-page story
script, an image API produces one bitmap per page (reusing page 1's bitmap as
a style reference), the results are saved to a timestamped folder with a JSON
manifest, and a separate reader script loads the folder back.

External effects (the two remote API calls, base64/PNG decoding, HTTP fetch)
are injected as explicit environment values of `Except`-typed outcomes; the
filesystem is an explicit association list of path/content pairs threaded
through the functions.  Pure Python string manipulation is translated
directly; the Python string methods `strip`, `split`, `startswith` are
re-implemented over `List Char` below so that they compute by kernel
reduction (the library `String.splitOn`/`String.trim` are defined through
byte positions and do not reduce).
-/

namespace VibeBooks

/-- Python whitespace as used by `str.strip()`: space, tab, newline,
carriage return, vertical tab, form feed. -/
def isPySpace (c : Char) : Bool :=
  c == ' ' || c == '\t' || c == '\n' || c == '\r' || c == '\x0b' || c == '\x0c'

/-- Strip leading and trailing Python whitespace from a character list. -/
def stripChars (l : List Char) : List Char :=
  ((l.dropWhile isPySpace).reverse.dropWhile isPySpace).reverse

/-- Python `s.strip()`. -/
def pyStrip (s : String) : String := ⟨stripChars s.data⟩

/-- Split a character list on every occurrence of `sep`, keeping empty
fragments, with an accumulator for the fragment being built (Python
`str.split(sep)` semantics: the empty string splits to `[""]`). -/
def splitCharsAux (sep : Char) : List Char → List Char → List (List Char)
  | [], acc => [acc.reverse]
  | c :: cs, acc =>
    if c == sep then acc.reverse :: splitCharsAux sep cs []
    else splitCharsAux sep cs (c :: acc)

/-- Python `s.split(sep)` for a one-character separator. -/
def pySplit (sep : Char) (s : String) : List String :=
  (splitCharsAux sep s.data []).map fun l => ⟨l⟩

/-- Join character lists with a separator character (inverse of the split). -/
def joinChars (sep : Char) : List (List Char) → List Char
  | [] => []
  | [x] => x
  | x :: y :: rest => x ++ sep :: joinChars sep (y :: rest)

/-- Python `s.split(sep, 1)[1]`: everything after the first occurrence of
`sep`, obtained by rejoining the tail of the full split with `sep`. -/
def pyAfterFirst (sep : Char) (s : String) : String :=
  ⟨joinChars sep (splitCharsAux sep s.data []).tail⟩

/-- Python `s.startswith(pre)`. -/
def pyStartsWith (s pre : String) : Bool := pre.data.isPrefixOf s.data

/-- Python `sep in s` for a one-character `sep`. -/
def pyContains (s : String) (c : Char) : Bool := s.data.contains c

/-- Python `os.path.join(a, b)` for the POSIX paths this program builds
(no trailing slashes, non-empty components). -/
def os_path_join (a b : String) : String := a ++ "/" ++ b

/-! ## Story generator (src/app.py, `generate_story_script`) -/

/-- Primary parse of `generate_story_script` (src/app.py lines 54-64): strip
the response, split on newlines, and for each stripped line that starts with
`"Page"` and contains a colon, keep the stripped remainder after the first
colon, in encounter order. -/
def parsePages (story_text : String) : List String :=
  ((pySplit '\n' (pyStrip story_text)).map pyStrip).filterMap fun line =>
    if pyStartsWith line "Page" && pyContains line ':' then
      some (pyStrip (pyAfterFirst ':' line))
    else none

/-- Sentence-splitting fallback of `generate_story_script` (src/app.py lines
67-70): `story_text.split('.')[:10]`, then keep fragments with non-empty
strip and re-append a period.  Note the truncation to 10 happens BEFORE the
empty fragments are discarded. -/
def fallbackPages (story_text : String) : List String :=
  ((pySplit '.' story_text).take 10).filterMap fun p =>
    if pyStrip p ≠ "" then some (pyStrip p ++ ".") else none

/-- Embedding of `generate_story_script` (src/app.py lines 33-75).  The
remote text-completion call is injected as `api`: `.ok story_text` is the
response content, `.error e` is a raised exception with message `e` (the
parsing code itself cannot raise: the only indexing is guarded by the colon
test).  The `prompt` argument only feeds the request and so does not affect
the result beyond what `api` already captures. -/
def generate_story_script (_prompt : String) (api : Except String String) :
    List String :=
  match api with
  | .error e => List.replicate 10 ("Error generating story: " ++ e)
  | .ok story_text =>
    let pages := parsePages story_text
    let pages := if pages.length < 10 then fallbackPages story_text else pages
    pages.take 10

/-! ## Image generator (src/app.py, `generate_image`) -/

/-- Bitmap model (PIL `Image`).  A decoded remote image is an arbitrary
value of this type chosen by the injected decoder; the placeholder built on
the error path (`Image.new` plus `ImageDraw.text`) fixes every field.
`drawn` records `draw.text` calls as (x, y, text, fill). -/
structure Image where
  width : Nat
  height : Nat
  mode : String
  background : String
  drawn : List (Nat × Nat × String × String)
deriving DecidableEq, Repr

/-- Placeholder bitmap of src/app.py lines 164-169:
`Image.new('RGB', (512, 512), color='lightgray')` with the error message
drawn at (10, 10) in red. -/
def placeholder (msg : String) : Image :=
  { width := 512, height := 512, mode := "RGB", background := "lightgray",
    drawn := [(10, 10, "Error: " ++ msg, "red")] }

/-- One piece of a chat message's content.  `refImage img` stands for the
`image_url` part holding the base64 data URL produced by
`image_to_base64_data_url(img)` (a lossless PNG encoding, so the part is
determined by the bitmap itself). -/
inductive MessagePart where
  | text (s : String)
  | refImage (img : Image)
deriving DecidableEq, Repr

/-- A chat message: role plus content parts. -/
structure ChatMessage where
  role : String
  content : List MessagePart
deriving DecidableEq, Repr

/-- The illustration instruction of src/app.py lines 85-100 (the two
f-string templates; leading indentation of the Python source literals is
kept as spaces after each newline). -/
def image_prompt_for (page_text : String) (page_number : Nat)
    (overall_prompt : String) (reference_image : Option Image) : String :=
  match reference_image with
  | some _ =>
    "\n            Children's book illustration. Use the same art style, color palette, and visual aesthetic as the reference image provided.\n            Scene from a story about " ++ overall_prompt ++ ".\n            This is page " ++ toString page_number ++ " of the book.\n            Page content: " ++ page_text ++ "\n            \n            IMPORTANT: Match the artistic style, character design, colors, and overall look of the reference image exactly.\n            "
  | none =>
    "\n            Children's book illustration style, colorful and friendly\n            Scene from a story about " ++ overall_prompt ++ ".\n            This is page " ++ toString page_number ++ " of the book.\n            Page content: " ++ page_text ++ "\n            "

/-- The messages array of src/app.py lines 102-131: with a reference image,
one user message of [text, reference image, instruction]; without, one user
message holding just the instruction. -/
def build_messages (page_text : String) (page_number : Nat)
    (overall_prompt : String) (reference_image : Option Image) :
    List ChatMessage :=
  match reference_image with
  | some img =>
    [{ role := "user",
       content := [.text "Reference image for style:", .refImage img,
                   .text (image_prompt_for page_text page_number overall_prompt reference_image)] }]
  | none =>
    [{ role := "user",
       content := [.text (image_prompt_for page_text page_number overall_prompt reference_image)] }]

/-- Injected environment for one `generate_image` call.  `api` is the remote
chat-completions call: `.error e` is a raised exception (transport failure,
or a field-access error while reading the response, surfaced with message
`e`); `.ok urls` is a successful response whose `model_extra` carries the
listed image URLs (`.ok none` means the `images` key is absent).
`decodeData p` is `base64.b64decode(p)` followed by `Image.open`;
`fetchAndOpen u` is `requests.get(u)` followed by `Image.open`. -/
structure ImageEnv where
  api : List ChatMessage → Except String (Option (List String))
  decodeData : String → Except String Image
  fetchAndOpen : String → Except String Image

/-- Python `url.split(',', 1)[1]` used on a data URL (src/app.py line 150):
`some payload` when a comma exists, `none` when the indexing would raise
`IndexError: list index out of range`. -/
def dataUrlPayload (url : String) : Option String :=
  match pySplit ',' url with
  | _ :: r :: rs => some (String.intercalate "," (r :: rs))
  | _ => none

/-- The body of the `try` block of `generate_image` (src/app.py lines
83-160) as an `Except`: call the API, take the first image URL, decode it
inline if it is a data URL (raising on a missing comma) or fetch it
otherwise, and raise "No images in response" when the response carries no
image list or an empty one. -/
def image_attempt (msgs : List ChatMessage) (env : ImageEnv) :
    Except String Image :=
  match env.api msgs with
  | .error e => .error e
  | .ok none => .error "No images in response"
  | .ok (some []) => .error "No images in response"
  | .ok (some (url :: _)) =>
    if pyStartsWith url "data:image" then
      match dataUrlPayload url with
      | none => .error "list index out of range"
      | some payload => env.decodeData payload
    else
      env.fetchAndOpen url

/-- Embedding of `generate_image` (src/app.py lines 78-169): run the try
block; any raised exception is caught and converted into the drawn
placeholder.  The function is total: no exception escapes to the caller. -/
def generate_image (page_text : String) (page_number : Nat)
    (overall_prompt : String) (reference_image : Option Image)
    (env : ImageEnv) : Image :=
  match image_attempt (build_messages page_text page_number overall_prompt reference_image) env with
  | .ok img => img
  | .error e => placeholder e

/-! ## Filesystem model and book persister (src/app.py, `save_book_to_folder`) -/

/-- One manifest entry of `book_data.json` (src/app.py lines 200-204). -/
structure BookPage where
  page_number : Nat
  text : String
  image_file : String
deriving DecidableEq, Repr

/-- The manifest written as `book_data.json` (src/app.py lines 186-190). -/
structure BookData where
  prompt : String
  generated_at : String
  pages : List BookPage
deriving DecidableEq, Repr

/-- Content of a file on disk: a PNG-encoded bitmap (`img.save(path, "PNG")`
read back losslessly by `Image.open`) or the JSON manifest (`json.dump` read
back by `json.load`). -/
inductive FileContent where
  | png (img : Image)
  | json (data : BookData)
deriving DecidableEq, Repr

/-- Filesystem model: files as a path/content association list where a
fresh write is prepended (so the newest write at a path shadows older
ones), plus the set of directories that exist. -/
structure FS where
  files : List (String × FileContent)
  dirs : List String
deriving DecidableEq, Repr

/-- Look up the current content at a path (the most recent write wins). -/
def findFile (p : String) : List (String × FileContent) → Option FileContent
  | [] => none
  | (q, c) :: rest => if q = p then some c else findFile p rest

/-- Write (or overwrite) a file. -/
def FS.writeFile (fs : FS) (p : String) (c : FileContent) : FS :=
  { fs with files := (p, c) :: fs.files }

/-- Python `os.makedirs(path, exist_ok=True)`. -/
def FS.mkdir (fs : FS) (p : String) : FS :=
  { fs with dirs := p :: fs.dirs }

/-- Python `os.path.exists(p)`: true when a file or a directory is at `p`. -/
def pathExists (fs : FS) (p : String) : Bool :=
  (findFile p fs.files).isSome || fs.dirs.contains p

/-- Python `f"{i:02d}"`: decimal digits left-padded with zeros to width 2. -/
def pad2 (i : Nat) : String := if i < 10 then "0" ++ toString i else toString i

/-- The image filename `f"page_{i:02d}.png"` of src/app.py line 195. -/
def page_filename (i : Nat) : String := "page_" ++ pad2 i ++ ".png"

/-- The save loop of src/app.py lines 193-204: for each (text, image) pair
of `zip(pages, images)` enumerated from `start`, record the manifest entry
and the file write `(path, png image)`, in iteration order. -/
def savePagesLoop (folder_path : String) :
    Nat → List (String × Image) → List BookPage × List (String × FileContent)
  | _, [] => ([], [])
  | i, (page_text, img) :: rest =>
    let done := savePagesLoop folder_path (i + 1) rest
    ({ page_number := i, text := page_text,
       image_file := page_filename i } :: done.1,
     (os_path_join folder_path (page_filename i), .png img) :: done.2)

/-- Embedding of `save_book_to_folder` (src/app.py lines 172-211).  The two
wall-clock reads are injected: `timestamp` is
`datetime.now().strftime("%Y%m%d_%H%M%S")` and `now_iso` is
`datetime.now().isoformat()`.  Returns the folder path and the filesystem
after the folder creation, the image writes (performed in loop order) and
the final `book_data.json` write.  In this model every write succeeds; an
OS-level write failure would propagate to the caller in the source and is
outside the embedding. -/
def save_book_to_folder (prompt : String) (pages : List String)
    (images : List Image) (timestamp now_iso : String) (fs : FS) :
    String × FS :=
  let folder_path := os_path_join "generated_books" ("book_" ++ timestamp)
  let fs := fs.mkdir folder_path
  let result := savePagesLoop folder_path 1 (pages.zip images)
  let fs := result.2.foldl (fun acc w => acc.writeFile w.1 w.2) fs
  let book_data : BookData :=
    { prompt := prompt, generated_at := now_iso, pages := result.1 }
  let fs := fs.writeFile (os_path_join folder_path "book_data.json") (.json book_data)
  (folder_path, fs)

/-! ## Pipeline orchestrator (src/app.py, `generate_childrens_book`) -/

/-- Record of one `generate_image` call made by the orchestrator: the
arguments it received (src/app.py line 243). -/
structure ImgCall where
  page_text : String
  page_number : Nat
  overall_prompt : String
  reference_image : Option Image
deriving DecidableEq, Repr

/-- The page loop of src/app.py lines 234-249: iterate over the pages with
index `i`, call `generate_image` with the current reference image (the
per-call remote behavior is `imgEnv i`), and after the first iteration store
that iteration's result as the reference for all later ones.  Returns the
storyboard of (image, caption) pairs, the image list, and the trace of
`generate_image` calls, all in page order. -/
def pages_loop (prompt : String) (imgEnv : Nat → ImageEnv) :
    Nat → Option Image → List String →
    List (Image × String) × List Image × List ImgCall
  | _, _, [] => ([], [], [])
  | i, reference_image, page_text :: rest =>
    let image := generate_image page_text (i + 1) prompt reference_image (imgEnv i)
    let nextRef := if i = 0 then some image else reference_image
    let done := pages_loop prompt imgEnv (i + 1) nextRef rest
    ((image, page_text) :: done.1, image :: done.2.1,
     { page_text := page_text, page_number := i + 1, overall_prompt := prompt,
       reference_image := reference_image } :: done.2.2)

/-- Outcome of one `generate_childrens_book` run: the gallery and status
returned to the UI, the filesystem after the run, and the traces of the
story-API and image-API calls the run made. -/
structure RunResult where
  gallery : Option (List (Image × String))
  status : String
  fs : FS
  story_calls : List String
  image_calls : List ImgCall
deriving Repr

/-- Success status message of src/app.py line 256 (its emoji decorations,
mojibake in the source file, are elided; no claim inspects them). -/
def success_status (prompt folder_path : String) : String :=
  "Successfully generated a 10-page children's book!\n\nPrompt: " ++ prompt ++
    "\n\nSaved to: " ++ folder_path

/-- Embedding of `generate_childrens_book` (src/app.py lines 214-261):
validate the prompt (`not prompt or not prompt.strip()`), generate the
script once, refuse an empty page list, run the page loop threading the
first image as style reference, then save.  In this model the save succeeds,
so the success branch of the final `try` is taken; the injected parameters
are the story API outcome, the per-page image environments, and the two
timestamps read by the persister. -/
def generate_childrens_book (prompt : String)
    (storyApi : Except String String) (imgEnv : Nat → ImageEnv)
    (timestamp now_iso : String) (fs : FS) : RunResult :=
  if prompt = "" ∨ pyStrip prompt = "" then
    { gallery := none, status := "Please enter a story prompt!", fs := fs,
      story_calls := [], image_calls := [] }
  else
    let pages := generate_story_script prompt storyApi
    if pages = [] then
      { gallery := none,
        status := "Failed to generate story script. Please try again.",
        fs := fs, story_calls := [prompt], image_calls := [] }
    else
      let looped := pages_loop prompt imgEnv 0 none pages
      let saved := save_book_to_folder prompt pages looped.2.1 timestamp now_iso fs
      { gallery := some looped.1, status := success_status prompt saved.1,
        fs := saved.2, story_calls := [prompt], image_calls := looped.2.2 }

/-! ## Reader utility (src/read_book.py) -/

/-- What the reader prints for one manifest entry: `image_size` is
`some (w, h)` when the referenced image file exists on disk (the reader then
prints its dimensions) and `none` when it is missing (the reader prints a
warning and continues). -/
structure PageReport where
  page_number : Nat
  text : String
  image_file : String
  image_size : Option (Nat × Nat)
deriving DecidableEq, Repr

/-- Result of `read_book` (src/read_book.py lines 13-56): the manifest is
missing (error printed, function returns normally), or it is loaded and one
report per manifest entry is produced.  `badManifest` marks a path at which
the manifest file exists but holds a PNG: there `json.load` would raise an
uncaught exception; no claim exercises it. -/
inductive ReadOutcome where
  | missingManifest
  | badManifest
  | loaded (data : BookData) (reports : List PageReport)
deriving DecidableEq, Repr

/-- Embedding of `read_book` (src/read_book.py lines 13-56). -/
def read_book (book_folder : String) (fs : FS) : ReadOutcome :=
  let json_path := os_path_join book_folder "book_data.json"
  match findFile json_path fs.files with
  | none => .missingManifest
  | some (.png _) => .badManifest
  | some (.json book_data) =>
    .loaded book_data (book_data.pages.map fun page =>
      { page_number := page.page_number, text := page.text,
        image_file := page.image_file,
        image_size :=
          match findFile (os_path_join book_folder page.image_file) fs.files with
          | some (.png img) => some (img.width, img.height)
          | _ => none })

/-- The lines `read_book` prints (src/read_book.py lines 20-56), derived
from its outcome; per-page blocks are flattened in order.  The `=` rules and
emoji headers are elided; the error line for a missing manifest is the
source's f-string. -/
def render_read_book (book_folder : String) : ReadOutcome → List String
  | .missingManifest =>
    ["Error: Could not find book_data.json in " ++ book_folder]
  | .badManifest => ["Traceback: json.load raised"]
  | .loaded data reports =>
    ["CHILDREN'S BOOK", "Prompt: " ++ data.prompt,
     "Generated: " ++ data.generated_at,
     "Total Pages: " ++ toString data.pages.length] ++
    (reports.flatMap fun r =>
      ["Page " ++ toString r.page_number, "Text: " ++ r.text,
       "Image: " ++ r.image_file] ++
      (match r.image_size with
       | some wh => ["Image size: " ++ toString wh.1 ++ "x" ++ toString wh.2 ++ " pixels"]
       | none => ["Warning: Image file not found"])) ++
    ["Book data loaded successfully!"]

/-- Lexicographically greatest element of a list of strings: equal to
`books.sort(reverse=True)[0]` of src/read_book.py lines 70-71. -/
def maxString (l : List String) : Option String :=
  l.foldl (fun acc b =>
    match acc with
    | none => some b
    | some a => some (if a < b then b else a)) none

/-- Python `os.listdir("generated_books")` filtered to directories
(src/read_book.py lines 67-68): the names under `generated_books/` among the
directories of the filesystem. -/
def list_generated_books (fs : FS) : List String :=
  fs.dirs.filterMap fun d =>
    if pyStartsWith d "generated_books/" then some (d.drop 16) else none

/-- Embedding of the `__main__` block of src/read_book.py (lines 59-85):
given the argument vector after the script name, returns the process exit
code and the printed lines.  With no argument it prints usage, reads the
lexicographically last book under `generated_books` when one exists, and
exits 1; with a folder argument that does not exist it prints an error and
exits 1; otherwise it runs `read_book` and exits 0 — also when the manifest
was missing, since `read_book` only prints and returns. -/
def reader_main (argv : List String) (fs : FS) : Nat × List String :=
  match argv with
  | [] =>
    let usage := ["Usage: python read_book.py <book_folder_path>",
                  "Example:",
                  "  python read_book.py generated_books/book_20251005_143022"]
    let extra :=
      if fs.dirs.contains "generated_books" then
        match maxString (list_generated_books fs) with
        | some name =>
          let latest_book := os_path_join "generated_books" name
          ["Found most recent book: " ++ latest_book, "Reading it now..."] ++
            render_read_book latest_book (read_book latest_book fs)
        | none => ["Warning: No books found in generated_books folder."]
      else []
    (1, usage ++ extra)
  | book_folder :: _ =>
    if pathExists fs book_folder then
      (0, render_read_book book_folder (read_book book_folder fs))
    else
      (1, ["Error: Folder '" ++ book_folder ++ "' does not exist"])

/-! ## Helper lemmas -/

/-- Appending a period never yields the empty string. -/
theorem append_dot_ne_empty (a : String) : a ++ "." ≠ "" := by
  intro h
  have h2 := congrArg String.data h
  rw [String.data_append] at h2
  simp at h2

/-- When every element of `l` passes the strip test, the fallback's
`filterMap` is a plain map. -/
theorem filterMap_strip_eq_map (l : List String)
    (h : ∀ p ∈ l, pyStrip p ≠ "") :
    (l.filterMap fun p => if pyStrip p ≠ "" then some (pyStrip p ++ ".") else none) =
      l.map fun p => pyStrip p ++ "." := by
  induction l with
  | nil => rfl
  | cons a t ih =>
    have ha : pyStrip a ≠ "" := h a (List.mem_cons_self a t)
    have ht : ∀ p ∈ t, pyStrip p ≠ "" := fun p hp => h p (List.mem_cons_of_mem a hp)
    rw [List.filterMap_cons, if_pos ha, List.map_cons, ih ht]

/-- On the `.ok` branch the generator returns the first ten entries of the
parse, or of the fallback when the parse came up short. -/
theorem generate_story_script_ok (prompt t : String) :
    generate_story_script prompt (.ok t) =
      (if (parsePages t).length < 10 then fallbackPages t else parsePages t).take 10 := rfl

/-- The page loop records one `generate_image` call per page. -/
theorem pages_loop_calls_length (prompt : String) (imgEnv : Nat → ImageEnv) :
    ∀ (l : List String) (i : Nat) (r : Option Image),
      ((pages_loop prompt imgEnv i r l).2.2).length = l.length := by
  intro l
  induction l with
  | nil => intro i r; rfl
  | cons p rest ih => intro i r; simp [pages_loop, ih]

/-- From any start index other than 0 the loop never replaces the
reference image: every recorded call carries the reference it started
with. -/
theorem pages_loop_ref_const (prompt : String) (imgEnv : Nat → ImageEnv) :
    ∀ (l : List String) (i : Nat) (r : Option Image), i ≠ 0 →
      ∀ c ∈ (pages_loop prompt imgEnv i r l).2.2, c.reference_image = r := by
  intro l
  induction l with
  | nil => intro i r _ c hc; simp [pages_loop] at hc
  | cons p rest ih =>
    intro i r hi c hc
    rw [pages_loop] at hc
    simp only [if_neg hi] at hc
    rcases List.mem_cons.mp hc with h | h
    · rw [h]
    · exact ih (i + 1) r (Nat.succ_ne_zero i) c h

/-- The k-th recorded call of the loop is for page `i + k + 1`, whatever
the reference threading does. -/
theorem pages_loop_page_number (prompt : String) (imgEnv : Nat → ImageEnv) :
    ∀ (l : List String) (i : Nat) (r : Option Image) (k : Nat) (c : ImgCall),
      ((pages_loop prompt imgEnv i r l).2.2)[k]? = some c →
      c.page_number = i + k + 1 := by
  intro l
  induction l with
  | nil => intro i r k c hc; simp [pages_loop] at hc
  | cons p rest ih =>
    intro i r k c hc
    simp only [pages_loop] at hc
    match k with
    | 0 =>
      rw [List.getElem?_cons_zero] at hc
      cases hc
      rfl
    | k' + 1 =>
      rw [List.getElem?_cons_succ] at hc
      have := ih (i + 1)
        (if i = 0 then some (generate_image p (i + 1) prompt r (imgEnv i)) else r) k' c hc
      omega

/-- A call found at any index of the loop's trace is a member of it. -/
theorem call_mem_of_getElem {α : Type} (l : List α) (k : Nat) (a : α)
    (h : l[k]? = some a) : a ∈ l := by
  induction l generalizing k with
  | nil => simp at h
  | cons x t ih =>
    match k with
    | 0 =>
      rw [List.getElem?_cons_zero, Option.some.injEq] at h
      rw [← h]
      exact List.mem_cons_self _ _
    | k' + 1 =>
      rw [List.getElem?_cons_succ] at h
      exact List.mem_cons_of_mem x (ih k' h)

/-- An element found at an index is a member of the list. -/
theorem getElem?_of_mem {α : Type} (l : List α) (a : α) (h : a ∈ l) :
    ∃ k : Nat, l[k]? = some a := by
  induction l with
  | nil => cases h
  | cons x t ih =>
    rcases List.mem_cons.mp h with rfl | h2
    · exact ⟨0, by rw [List.getElem?_cons_zero]⟩
    · obtain ⟨k, hk⟩ := ih h2
      exact ⟨k + 1, by rw [List.getElem?_cons_succ]; exact hk⟩

/-- An index holding an element is within bounds. -/
theorem lt_length_of_getElem? {α : Type} (l : List α) (k : Nat) (a : α)
    (h : l[k]? = some a) : k < l.length := by
  induction l generalizing k with
  | nil => simp at h
  | cons x t ih =>
    match k with
    | 0 => simp
    | k' + 1 =>
      rw [List.getElem?_cons_succ] at h
      exact Nat.succ_lt_succ (ih k' h)

/-- Sequentially performing a list of writes prepends them in reverse
order and leaves the directories alone. -/
theorem foldl_writeFile_spec :
    ∀ (ws : List (String × FileContent)) (fs0 : FS),
      (ws.foldl (fun acc w => acc.writeFile w.1 w.2) fs0).files =
        ws.reverse ++ fs0.files ∧
      (ws.foldl (fun acc w => acc.writeFile w.1 w.2) fs0).dirs = fs0.dirs := by
  intro ws
  induction ws with
  | nil => intro fs0; exact ⟨rfl, rfl⟩
  | cons w ws ih =>
    intro fs0
    rw [List.foldl_cons]
    refine ⟨?_, (ih _).2⟩
    rw [(ih _).1]
    simp [FS.writeFile, List.reverse_cons, List.append_assoc]

/-- Both outputs of the save loop have one entry per zipped pair. -/
theorem savePagesLoop_lengths (folder : String) :
    ∀ (l : List (String × Image)) (s : Nat),
      ((savePagesLoop folder s l).1).length = l.length ∧
      ((savePagesLoop folder s l).2).length = l.length := by
  intro l
  induction l with
  | nil => intro s; exact ⟨rfl, rfl⟩
  | cons pi rest ih =>
    intro s
    obtain ⟨pt, img⟩ := pi
    simp [savePagesLoop, (ih (s + 1)).1, (ih (s + 1)).2]

/-- The k-th manifest entry and the k-th write of the save loop, index
shifted by the start number. -/
theorem savePagesLoop_get (folder : String) :
    ∀ (l : List (String × Image)) (s k : Nat),
      ((savePagesLoop folder s l).1)[k]? =
        (l[k]?).map (fun pi => BookPage.mk (s + k) pi.1 (page_filename (s + k))) ∧
      ((savePagesLoop folder s l).2)[k]? =
        (l[k]?).map (fun pi =>
          (os_path_join folder (page_filename (s + k)), FileContent.png pi.2)) := by
  intro l
  induction l with
  | nil => intro s k; simp [savePagesLoop]
  | cons pi rest ih =>
    intro s k
    obtain ⟨pt, img⟩ := pi
    match k with
    | 0 => simp [savePagesLoop]
    | k' + 1 =>
      simp only [savePagesLoop, List.getElem?_cons_succ]
      have harith : s + 1 + k' = s + (k' + 1) := by omega
      have := ih (s + 1) k'
      rw [harith] at this
      exact this

/-- The manifest entries keep the page texts in order. -/
theorem savePagesLoop_texts (folder : String) :
    ∀ (l : List (String × Image)) (s : Nat),
      ((savePagesLoop folder s l).1).map BookPage.text = l.map Prod.fst := by
  intro l
  induction l with
  | nil => intro s; rfl
  | cons pi rest ih =>
    intro s
    obtain ⟨pt, img⟩ := pi
    simp [savePagesLoop, ih (s + 1)]

/-- Every write of the save loop is a PNG file at the numbered path of some
zipped pair. -/
theorem savePagesLoop_writes_shape (folder : String) (l : List (String × Image))
    (s : Nat) (w : String × FileContent)
    (hw : w ∈ (savePagesLoop folder s l).2) :
    ∃ k pi, l[k]? = some pi ∧
      w = (os_path_join folder (page_filename (s + k)), FileContent.png pi.2) := by
  obtain ⟨k, hk⟩ := getElem?_of_mem _ _ hw
  have h2 := (savePagesLoop_get folder l s k).2
  rw [hk] at h2
  rcases hpi : l[k]? with _ | pi
  · rw [hpi] at h2; simp at h2
  · rw [hpi, Option.map_some'] at h2
    exact ⟨k, pi, hpi, Option.some.inj h2⟩

/-- Appending to both sides of a string equation cancels on the left. -/
theorem string_append_cancel_left (a b c : String) (h : a ++ b = a ++ c) :
    b = c := by
  have h2 := congrArg String.data h
  rw [String.data_append, String.data_append] at h2
  exact String.ext (List.append_cancel_left h2)

/-- Joining distinct names under the same folder gives distinct paths. -/
theorem os_path_join_inj_right (folder a b : String)
    (h : os_path_join folder a = os_path_join folder b) : a = b :=
  string_append_cancel_left (folder ++ "/") a b h

/-- A numbered page image filename is never the manifest filename. -/
theorem page_filename_ne_manifest (i : Nat) :
    page_filename i ≠ "book_data.json" := by
  intro h
  have h2 := congrArg String.data h
  rw [page_filename, String.data_append, String.data_append] at h2
  have h3 : "page_".data = 'p' :: "age_".data := rfl
  have h4 : "book_data.json".data = 'b' :: "ook_data.json".data := rfl
  rw [h3, h4, List.cons_append, List.cons_append] at h2
  injection h2 with hc _
  exact absurd hc (by decide)

/-- On page numbers up to 10 — the only ones a ten-page book uses — the
numbered filename determines the page number. -/
theorem page_filename_inj_small :
    ∀ i, i < 11 → ∀ j, j < 11 → page_filename i = page_filename j → i = j := by
  decide

/-- A lookup in a list of writes that contains the key once (every record
at that key carries the same content) finds that content whatever follows. -/
theorem findFile_append_unique (p : String) (c : FileContent)
    (ws rest : List (String × FileContent)) (hmem : (p, c) ∈ ws)
    (huni : ∀ w ∈ ws, w.1 = p → w.2 = c) :
    findFile p (ws ++ rest) = some c := by
  induction ws with
  | nil => cases hmem
  | cons w ws ih =>
    obtain ⟨q, d⟩ := w
    rw [List.cons_append, findFile]
    by_cases hq : q = p
    · rw [if_pos hq]
      exact congrArg some (huni (q, d) (List.mem_cons_self _ _) hq)
    · rw [if_neg hq]
      rcases List.mem_cons.mp hmem with heq | hmem2
      · cases heq; exact absurd rfl hq
      · exact ih hmem2 (fun w hw => huni w (List.mem_cons_of_mem _ hw))

/-- What `save_book_to_folder` produces: the folder path is the timestamped
name, the files are the manifest (written last, hence first) on top of the
page images in reverse write order on top of the pre-existing files, and
exactly the new folder is created. -/
theorem save_book_files (prompt : String) (pages : List String)
    (images : List Image) (timestamp now_iso : String) (fs : FS) :
    (save_book_to_folder prompt pages images timestamp now_iso fs).1 =
      os_path_join "generated_books" ("book_" ++ timestamp) ∧
    (save_book_to_folder prompt pages images timestamp now_iso fs).2.files =
      (os_path_join (os_path_join "generated_books" ("book_" ++ timestamp)) "book_data.json",
        FileContent.json (BookData.mk prompt now_iso
          (savePagesLoop (os_path_join "generated_books" ("book_" ++ timestamp)) 1
            (pages.zip images)).1)) ::
        ((savePagesLoop (os_path_join "generated_books" ("book_" ++ timestamp)) 1
            (pages.zip images)).2.reverse ++ fs.files) ∧
    (save_book_to_folder prompt pages images timestamp now_iso fs).2.dirs =
      os_path_join "generated_books" ("book_" ++ timestamp) :: fs.dirs := by
  refine ⟨rfl, ?_, ?_⟩
  · show (FS.writeFile _ _ _).files = _
    rw [FS.writeFile]
    simp only []
    rw [(foldl_writeFile_spec _ _).1]
    rfl
  · show (FS.writeFile _ _ _).dirs = _
    rw [FS.writeFile]
    simp only []
    rw [(foldl_writeFile_spec _ _).2]
    rfl

/-- When the manifest is found, `read_book` loads it and reports every
manifest entry, each with the dimensions of its image file when that file
is on disk. -/
theorem read_book_loaded (book_folder : String) (bd : BookData) (fs : FS)
    (h : findFile (os_path_join book_folder "book_data.json") fs.files =
      some (FileContent.json bd)) :
    read_book book_folder fs = ReadOutcome.loaded bd (bd.pages.map fun page =>
      { page_number := page.page_number, text := page.text,
        image_file := page.image_file,
        image_size :=
          match findFile (os_path_join book_folder page.image_file) fs.files with
          | some (.png img) => some (img.width, img.height)
          | _ => none }) := by
  simp only [read_book]
  rw [h]

/-! ## Claim theorems -/

/-- C1, counterexample: the claim says `generate_story_script` returns
exactly 10 strings on every reachable code path, but when the API response
holds fewer than 10 period-delimited fragments the fallback produces fewer:
for the reachable response text "Hi" the function returns the single entry
"Hi.". -/
theorem C1_counterexample :
    generate_story_script "a brave mouse" (.ok "Hi") = ["Hi."] ∧
    (generate_story_script "a brave mouse" (.ok "Hi")).length ≠ 10 := by decide

/-- C1, amended: for every prompt and every API outcome the result has at
most 10 entries; it has exactly 10 on the API failure path, and on the
success path whenever the primary parse found at least 10 pages or the
sentence fallback yields at least 10 entries. -/
theorem C1_story_length (prompt : String) (api : Except String String) :
    (generate_story_script prompt api).length ≤ 10 ∧
    (∀ e, api = .error e → (generate_story_script prompt api).length = 10) ∧
    (∀ t, api = .ok t → 10 ≤ (parsePages t).length →
      (generate_story_script prompt api).length = 10) ∧
    (∀ t, api = .ok t → 10 ≤ (fallbackPages t).length →
      (generate_story_script prompt api).length = 10) := by
  refine ⟨?_, ?_, ?_, ?_⟩
  · cases api with
    | error e => simp [generate_story_script]
    | ok t =>
      rw [generate_story_script_ok, List.length_take]
      omega
  · rintro e rfl
    simp [generate_story_script]
  · rintro t rfl h
    rw [generate_story_script_ok, if_neg (by omega), List.length_take]
    omega
  · rintro t rfl h
    rw [generate_story_script_ok]
    by_cases hp : (parsePages t).length < 10
    · rw [if_pos hp, List.length_take]
      omega
    · rw [if_neg hp, List.length_take]
      omega

/-- C1, witness: on a concrete API failure the amended theorem yields a
result of length exactly 10. -/
theorem C1_story_length_witness :
    (generate_story_script "a brave mouse" (.error "boom")).length = 10 :=
  (C1_story_length "a brave mouse" (.error "boom")).2.1 "boom" rfl

/-- C2, counterexample: the claim promises exactly 10 entries whenever the
response has fewer than 10 "Page" lines but at least 10 non-empty
period-delimited clauses.  The code truncates to the first 10 raw fragments
BEFORE discarding empty ones, so the response "A..B.C.D.E.F.G.H.I.J.K" (11
non-empty clauses, an empty fragment between the two periods) yields only 9
entries. -/
theorem C2_counterexample :
    (parsePages "A..B.C.D.E.F.G.H.I.J.K").length < 10 ∧
    10 ≤ ((pySplit '.' "A..B.C.D.E.F.G.H.I.J.K").filter
      (fun p => pyStrip p != "")).length ∧
    (generate_story_script "a brave mouse" (.ok "A..B.C.D.E.F.G.H.I.J.K")).length ≠ 10 := by
  decide

/-- C2, amended: when fewer than 10 "Page" lines parse, the fallback keeps,
among the FIRST TEN raw period-split fragments, those whose strip is
non-empty, appending a period to each; so the result has exactly 10 entries
precisely when the response splits into at least 10 fragments and each of
the first 10 strips to something non-empty — and every returned entry is
then non-empty and ends in a period. -/
theorem C2_fallback (prompt t : String)
    (hparse : (parsePages t).length < 10)
    (hlen : 10 ≤ (pySplit '.' t).length)
    (hne : ∀ p ∈ (pySplit '.' t).take 10, pyStrip p ≠ "") :
    (generate_story_script prompt (.ok t)).length = 10 ∧
    ∀ s ∈ generate_story_script prompt (.ok t), s ≠ "" ∧ ∃ u, s = u ++ "." := by
  have hfb : fallbackPages t =
      ((pySplit '.' t).take 10).map fun p => pyStrip p ++ "." :=
    filterMap_strip_eq_map _ hne
  have hfblen : (fallbackPages t).length = 10 := by
    rw [hfb, List.length_map, List.length_take]
    omega
  rw [generate_story_script_ok, if_pos hparse]
  constructor
  · rw [List.length_take, hfblen]
    exact min_self 10
  · intro s hs
    have hs2 : s ∈ fallbackPages t := List.mem_of_mem_take hs
    rw [hfb] at hs2
    obtain ⟨p, _, rfl⟩ := List.mem_map.mp hs2
    exact ⟨append_dot_ne_empty _, pyStrip p, rfl⟩

/-- C2, witness: a concrete response with 10 clean clauses and no "Page"
lines goes through the fallback and produces exactly 10 entries. -/
theorem C2_fallback_witness :
    (generate_story_script "a brave mouse" (.ok "A.B.C.D.E.F.G.H.I.J.")).length = 10 :=
  (C2_fallback "a brave mouse" "A.B.C.D.E.F.G.H.I.J."
    (by decide) (by decide) (by decide)).1

/-- C7: on the well-formed response "Page 1: A." through "Page 10: J." the
primary parser extracts the ten page texts in encounter order, each the
stripped remainder after the first colon of its line. -/
theorem C7_parse_well_formed :
    generate_story_script "a brave mouse"
      (.ok "Page 1: A.\nPage 2: B.\nPage 3: C.\nPage 4: D.\nPage 5: E.\nPage 6: F.\nPage 7: G.\nPage 8: H.\nPage 9: I.\nPage 10: J.")
      = ["A.", "B.", "C.", "D.", "E.", "F.", "G.", "H.", "I.", "J."] ∧
    parsePages "Page 1: A.\nPage 2: B.\nPage 3: C.\nPage 4: D.\nPage 5: E.\nPage 6: F.\nPage 7: G.\nPage 8: H.\nPage 9: I.\nPage 10: J."
      = ["A.", "B.", "C.", "D.", "E.", "F.", "G.", "H.", "I.", "J."] := by
  decide

/-- C8: whenever the text-completion call raises, the generator returns ten
copies of the string "Error generating story: " followed by the exception
message, for every prompt and every message — the exception is absorbed, not
propagated (the function is total on the error constructor). -/
theorem C8_error_path (prompt e : String) :
    generate_story_script prompt (.error e) =
      List.replicate 10 ("Error generating story: " ++ e) := rfl

/-- C3, counterexample: the claim says the reader exits nonzero both when
the folder argument does not exist and when the manifest is missing.  In the
second case `read_book` prints the error and returns normally, so the
process exits 0: with an existing empty folder "b" the exit code is 0, not
nonzero, although the missing-manifest error line was printed. -/
theorem C3_counterexample :
    read_book "b" (FS.mk [] ["b"]) = .missingManifest ∧
    (reader_main ["b"] (FS.mk [] ["b"])).1 = 0 ∧
    "Error: Could not find book_data.json in b" ∈ (reader_main ["b"] (FS.mk [] ["b"])).2 := by
  decide

/-- C3, amended: a folder argument that does not exist makes the reader
print an error and exit 1; a missing manifest in an existing folder makes it
print an error but exit 0 (read_book returns normally after printing). -/
theorem C3_reader_errors :
    (∀ folder fs, pathExists fs folder = false →
      reader_main [folder] fs =
        (1, ["Error: Folder '" ++ folder ++ "' does not exist"])) ∧
    (∀ folder fs, pathExists fs folder = true →
      read_book folder fs = .missingManifest →
      reader_main [folder] fs =
        (0, ["Error: Could not find book_data.json in " ++ folder])) := by
  constructor
  · intro folder fs h
    simp [reader_main, h]
  · intro folder fs h hm
    simp [reader_main, h, hm, render_read_book]

/-- C3, witness: the amended behavior at concrete inputs — a non-existent
folder exits 1, an existing folder without a manifest exits 0. -/
theorem C3_reader_errors_witness :
    reader_main ["nope"] (FS.mk [] []) =
      (1, ["Error: Folder 'nope' does not exist"]) ∧
    reader_main ["bk"] (FS.mk [] ["bk"]) =
      (0, ["Error: Could not find book_data.json in bk"]) :=
  ⟨C3_reader_errors.1 "nope" (FS.mk [] []) (by decide),
   C3_reader_errors.2 "bk" (FS.mk [] ["bk"]) (by decide) (by decide)⟩

/-- C4: `generate_image` is total — its result is the successfully decoded
bitmap or the placeholder, never a propagated exception — and on every
failure shape (raised API call or field access, missing or empty image
list, malformed data URL, base64/decode failure, URL fetch failure) the
result is the 512x512 light-gray placeholder with the error message drawn
on it at (10, 10) in red. -/
theorem C4_image_never_raises (page_text : String) (page_number : Nat)
    (overall_prompt : String) (reference_image : Option Image)
    (env : ImageEnv) :
    ((∃ img,
        image_attempt (build_messages page_text page_number overall_prompt reference_image) env = .ok img ∧
        generate_image page_text page_number overall_prompt reference_image env = img) ∨
     (∃ e,
        image_attempt (build_messages page_text page_number overall_prompt reference_image) env = .error e ∧
        generate_image page_text page_number overall_prompt reference_image env = placeholder e)) ∧
    (∀ e, env.api (build_messages page_text page_number overall_prompt reference_image) = .error e →
      generate_image page_text page_number overall_prompt reference_image env = placeholder e) ∧
    (env.api (build_messages page_text page_number overall_prompt reference_image) = .ok none →
      generate_image page_text page_number overall_prompt reference_image env =
        placeholder "No images in response") ∧
    (env.api (build_messages page_text page_number overall_prompt reference_image) = .ok (some []) →
      generate_image page_text page_number overall_prompt reference_image env =
        placeholder "No images in response") ∧
    (∀ url rest payload e,
      env.api (build_messages page_text page_number overall_prompt reference_image) = .ok (some (url :: rest)) →
      pyStartsWith url "data:image" = true → dataUrlPayload url = some payload →
      env.decodeData payload = .error e →
      generate_image page_text page_number overall_prompt reference_image env = placeholder e) ∧
    (∀ url rest e,
      env.api (build_messages page_text page_number overall_prompt reference_image) = .ok (some (url :: rest)) →
      pyStartsWith url "data:image" = false → env.fetchAndOpen url = .error e →
      generate_image page_text page_number overall_prompt reference_image env = placeholder e) ∧
    (∀ e, (placeholder e).width = 512 ∧ (placeholder e).height = 512 ∧
      (placeholder e).mode = "RGB" ∧ (placeholder e).background = "lightgray" ∧
      (placeholder e).drawn = [(10, 10, "Error: " ++ e, "red")]) := by
  refine ⟨?_, ?_, ?_, ?_, ?_, ?_, fun e => ⟨rfl, rfl, rfl, rfl, rfl⟩⟩
  · rcases h : image_attempt (build_messages page_text page_number overall_prompt reference_image) env with e | img
    · exact Or.inr ⟨e, rfl, by rw [generate_image, h]⟩
    · exact Or.inl ⟨img, rfl, by rw [generate_image, h]⟩
  · intro e h
    rw [generate_image, image_attempt, h]
  · intro h
    rw [generate_image, image_attempt, h]
  · intro h
    rw [generate_image, image_attempt, h]
  · intro url rest payload e hapi hdata hpay hdec
    rw [generate_image, image_attempt, hapi]
    simp only [hdata, if_true, hpay, hdec]
  · intro url rest e hapi hdata hfetch
    rw [generate_image, image_attempt, hapi]
    simp only [hdata, Bool.false_eq_true, if_false, hfetch]

/-- C4, witness: with a transport failure injected, a concrete call returns
the drawn placeholder. -/
theorem C4_image_never_raises_witness :
    generate_image "The mouse sets off." 1 "a brave mouse" none
      (ImageEnv.mk (fun _ => .error "network down") (fun _ => .error "bad base64")
        (fun _ => .error "connection refused")) = placeholder "network down" :=
  (C4_image_never_raises "The mouse sets off." 1 "a brave mouse" none
      (ImageEnv.mk (fun _ => .error "network down") (fun _ => .error "bad base64")
        (fun _ => .error "connection refused"))).2.1 "network down" rfl

/-- C6: an empty or whitespace-only prompt short-circuits the pipeline: the
run returns no gallery and the user-facing message, makes no story-API call
and no image-API call, and leaves the filesystem (files and folders alike)
untouched. -/
theorem C6_empty_prompt (prompt : String) (storyApi : Except String String)
    (imgEnv : Nat → ImageEnv) (timestamp now_iso : String) (fs : FS)
    (h : prompt = "" ∨ pyStrip prompt = "") :
    generate_childrens_book prompt storyApi imgEnv timestamp now_iso fs =
      { gallery := none, status := "Please enter a story prompt!", fs := fs,
        story_calls := [], image_calls := [] } := by
  rw [generate_childrens_book, if_pos h]

/-- C6, witness: a concrete whitespace-only prompt with a concrete
environment returns the message, no gallery, no calls and no writes. -/
theorem C6_empty_prompt_witness :
    generate_childrens_book "  " (.ok "Page 1: A.") (fun _ =>
        ImageEnv.mk (fun _ => .error "e") (fun _ => .error "d") (fun _ => .error "f"))
      "20251005_143022" "2025-10-05T14:30:22" (FS.mk [] []) =
      { gallery := none, status := "Please enter a story prompt!",
        fs := FS.mk [] [], story_calls := [], image_calls := [] } :=
  C6_empty_prompt "  " (.ok "Page 1: A.") (fun _ =>
      ImageEnv.mk (fun _ => .error "e") (fun _ => .error "d") (fun _ => .error "f"))
    "20251005_143022" "2025-10-05T14:30:22" (FS.mk [] []) (Or.inr (by decide))

/-- C5: in every run that reaches image generation (valid prompt, non-empty
script), the trace of `generate_image` calls has one entry per page; the
page-1 call receives no reference image, and every later call — for page
k+1, as its recorded page number shows — receives as reference exactly the
bitmap returned by the page-1 call, which is also the first gallery
image. -/
theorem C5_style_reference (prompt : String) (storyApi : Except String String)
    (imgEnv : Nat → ImageEnv) (timestamp now_iso : String) (fs : FS)
    (hp : pyStrip prompt ≠ "")
    (hpages : generate_story_script prompt storyApi ≠ []) :
    (generate_childrens_book prompt storyApi imgEnv timestamp now_iso fs).image_calls.length =
      (generate_story_script prompt storyApi).length ∧
    (generate_childrens_book prompt storyApi imgEnv timestamp now_iso fs).image_calls[0]? =
      some (ImgCall.mk (generate_story_script prompt storyApi).headI 1 prompt none) ∧
    (∀ k c,
      (generate_childrens_book prompt storyApi imgEnv timestamp now_iso fs).image_calls[k]? = some c →
      1 ≤ k →
      c.reference_image =
        some (generate_image (generate_story_script prompt storyApi).headI 1 prompt none (imgEnv 0)) ∧
      c.page_number = k + 1) ∧
    (∃ g, (generate_childrens_book prompt storyApi imgEnv timestamp now_iso fs).gallery = some g ∧
      g[0]? = some (generate_image (generate_story_script prompt storyApi).headI 1 prompt none (imgEnv 0),
        (generate_story_script prompt storyApi).headI)) := by
  have hguard : ¬(prompt = "" ∨ pyStrip prompt = "") := by
    rintro (rfl | h2)
    · exact hp (by decide)
    · exact hp h2
  rcases hpgs : generate_story_script prompt storyApi with _ | ⟨p, rest⟩
  · exact absurd hpgs hpages
  have hrun : generate_childrens_book prompt storyApi imgEnv timestamp now_iso fs =
      { gallery := some (pages_loop prompt imgEnv 0 none (p :: rest)).1,
        status := success_status prompt
          (save_book_to_folder prompt (p :: rest)
            (pages_loop prompt imgEnv 0 none (p :: rest)).2.1 timestamp now_iso fs).1,
        fs := (save_book_to_folder prompt (p :: rest)
          (pages_loop prompt imgEnv 0 none (p :: rest)).2.1 timestamp now_iso fs).2,
        story_calls := [prompt],
        image_calls := (pages_loop prompt imgEnv 0 none (p :: rest)).2.2 } := by
    rw [generate_childrens_book, if_neg hguard]
    simp only [hpgs]
    rw [if_neg (List.cons_ne_nil p rest)]
  have hloop : pages_loop prompt imgEnv 0 none (p :: rest) =
      ((generate_image p 1 prompt none (imgEnv 0), p) ::
          (pages_loop prompt imgEnv 1 (some (generate_image p 1 prompt none (imgEnv 0))) rest).1,
        generate_image p 1 prompt none (imgEnv 0) ::
          (pages_loop prompt imgEnv 1 (some (generate_image p 1 prompt none (imgEnv 0))) rest).2.1,
        ImgCall.mk p 1 prompt none ::
          (pages_loop prompt imgEnv 1 (some (generate_image p 1 prompt none (imgEnv 0))) rest).2.2) := by
    simp [pages_loop]
  refine ⟨?_, ?_, ?_, ?_⟩
  · rw [hrun]
    exact pages_loop_calls_length prompt imgEnv (p :: rest) 0 none
  · rw [hrun, hloop]
    simp
  · intro k c hc hk
    rw [hrun] at hc
    simp only at hc
    constructor
    · rcases k with _ | k'
      · omega
      · rw [hloop, List.getElem?_cons_succ] at hc
        have hmem := call_mem_of_getElem _ k' c hc
        exact pages_loop_ref_const prompt imgEnv rest 1
          (some (generate_image p 1 prompt none (imgEnv 0))) one_ne_zero c hmem
    · have := pages_loop_page_number prompt imgEnv (p :: rest) 0 none k c hc
      omega
  · rw [hrun, hloop]
    refine ⟨_, rfl, ?_⟩
    simp

/-- C5, witness: a concrete two-page run (story API fails, so the script is
the ten error strings; all image calls fail to placeholders) has its second
call referencing the first call's bitmap. -/
theorem C5_style_reference_witness :
    (generate_childrens_book "a brave mouse" (.error "boom")
        (fun _ => ImageEnv.mk (fun _ => .error "e") (fun _ => .error "d") (fun _ => .error "f"))
        "t" "n" (FS.mk [] [])).image_calls.length = 10 :=
  (C5_style_reference "a brave mouse" (.error "boom")
      (fun _ => ImageEnv.mk (fun _ => .error "e") (fun _ => .error "d") (fun _ => .error "f"))
      "t" "n" (FS.mk [] []) (by decide) (by decide)).1

/-- C10: with pages and images lists of any (possibly unequal) lengths, the
save loop runs over `zip(pages, images)` and raises nothing: the manifest
holds exactly `min(len(pages), len(images))` entries, exactly that many
image files plus the manifest are written on top of the old filesystem, and
the k-th entry (0-based) has page_number `k+1`, the k-th page text, and
image_file `page_<k+1 padded>.png` — the very path under which the k-th
image was written into the folder. -/
theorem C10_save_zip_truncation (prompt timestamp now_iso : String) (fs : FS)
    (pages : List String) (images : List Image) :
    findFile
        (os_path_join (save_book_to_folder prompt pages images timestamp now_iso fs).1
          "book_data.json")
        (save_book_to_folder prompt pages images timestamp now_iso fs).2.files =
      some (FileContent.json (BookData.mk prompt now_iso
        (savePagesLoop (save_book_to_folder prompt pages images timestamp now_iso fs).1 1
          (pages.zip images)).1)) ∧
    (savePagesLoop (save_book_to_folder prompt pages images timestamp now_iso fs).1 1
        (pages.zip images)).1.length = min pages.length images.length ∧
    (save_book_to_folder prompt pages images timestamp now_iso fs).2.files.length =
      fs.files.length + (min pages.length images.length + 1) ∧
    ∀ (k : Nat) (pi : String × Image), (pages.zip images)[k]? = some pi →
      ((savePagesLoop (save_book_to_folder prompt pages images timestamp now_iso fs).1 1
          (pages.zip images)).1)[k]? =
        some (BookPage.mk (k + 1) pi.1 (page_filename (k + 1))) ∧
      (os_path_join (save_book_to_folder prompt pages images timestamp now_iso fs).1
          (page_filename (k + 1)), FileContent.png pi.2) ∈
        (save_book_to_folder prompt pages images timestamp now_iso fs).2.files := by
  obtain ⟨h1, h2, h3⟩ := save_book_files prompt pages images timestamp now_iso fs
  refine ⟨?_, ?_, ?_, ?_⟩
  · rw [h1, h2, findFile, if_pos rfl]
  · rw [h1, (savePagesLoop_lengths _ _ _).1, List.length_zip]
  · rw [h2]
    simp only [List.length_cons, List.length_append, List.length_reverse,
      (savePagesLoop_lengths _ _ _).2, List.length_zip]
    omega
  · intro k pi hk
    constructor
    · rw [h1, (savePagesLoop_get _ _ 1 k).1, hk, Option.map_some', Nat.add_comm 1 k]
    · rw [h1, h2]
      have hw := (savePagesLoop_get
        (os_path_join "generated_books" ("book_" ++ timestamp)) (pages.zip images) 1 k).2
      rw [hk, Option.map_some'] at hw
      have hmemw := call_mem_of_getElem _ k _ hw
      rw [Nat.add_comm 1 k] at hmemw
      exact List.mem_cons_of_mem _ (List.mem_append_left _ (List.mem_reverse.mpr hmemw))

/-- C10, witness: with 3 pages and 2 images the first manifest entry is
page 1 with the first text and the first numbered filename. -/
theorem C10_save_zip_truncation_witness :
    ((savePagesLoop (save_book_to_folder "p" ["a", "b", "c"]
        [placeholder "x", placeholder "y"] "t" "n" (FS.mk [] [])).1 1
        (["a", "b", "c"].zip [placeholder "x", placeholder "y"])).1)[0]? =
      some (BookPage.mk 1 "a" (page_filename 1)) :=
  ((C10_save_zip_truncation "p" "t" "n" (FS.mk [] []) ["a", "b", "c"]
      [placeholder "x", placeholder "y"]).2.2.2 0 ("a", placeholder "x") (by decide)).1

/-- C9: saving a 10-page book and then pointing the reader at the returned
folder loads the manifest back with the same prompt, the same ten page
texts in order, ten manifest entries, and ten per-page reports whose image
files all resolve on disk (each report carries the dimensions of the very
bitmap that was saved for that page). -/
theorem C9_round_trip (prompt timestamp now_iso : String) (fs : FS)
    (pages : List String) (images : List Image)
    (hp : pages.length = 10) (hi : images.length = 10) :
    ∃ data reports,
      read_book (save_book_to_folder prompt pages images timestamp now_iso fs).1
          (save_book_to_folder prompt pages images timestamp now_iso fs).2 =
        ReadOutcome.loaded data reports ∧
      data.prompt = prompt ∧
      data.pages.map BookPage.text = pages ∧
      data.pages.length = 10 ∧
      reports.length = 10 ∧
      reports.map PageReport.text = pages ∧
      ∀ r ∈ reports, r.image_size.isSome = true := by
  obtain ⟨h1, h2, h3⟩ := save_book_files prompt pages images timestamp now_iso fs
  have hzplen : (pages.zip images).length = 10 := by
    rw [List.length_zip, hp, hi]
    exact min_self 10
  have hentlen : ((savePagesLoop (os_path_join "generated_books" ("book_" ++ timestamp)) 1
      (pages.zip images)).1).length = 10 := by
    rw [(savePagesLoop_lengths _ _ _).1, hzplen]
  have htexts : ((savePagesLoop (os_path_join "generated_books" ("book_" ++ timestamp)) 1
      (pages.zip images)).1).map BookPage.text = pages := by
    rw [savePagesLoop_texts]
    exact List.map_fst_zip pages images (by rw [hp, hi])
  have hfind : findFile
      (os_path_join (save_book_to_folder prompt pages images timestamp now_iso fs).1
        "book_data.json")
      (save_book_to_folder prompt pages images timestamp now_iso fs).2.files =
      some (FileContent.json (BookData.mk prompt now_iso
        (savePagesLoop (os_path_join "generated_books" ("book_" ++ timestamp)) 1
          (pages.zip images)).1)) := by
    rw [h1, h2, findFile, if_pos rfl]
  have hloaded := read_book_loaded
    (save_book_to_folder prompt pages images timestamp now_iso fs).1
    (BookData.mk prompt now_iso
      (savePagesLoop (os_path_join "generated_books" ("book_" ++ timestamp)) 1
        (pages.zip images)).1)
    (save_book_to_folder prompt pages images timestamp now_iso fs).2 hfind
  refine ⟨_, _, hloaded, rfl, htexts, hentlen, ?_, ?_, ?_⟩
  · rw [List.length_map]
    exact hentlen
  · rw [List.map_map]
    exact htexts
  · intro r hr
    obtain ⟨page, hpage, hrpage⟩ := List.mem_map.mp hr
    obtain ⟨k, hk⟩ := getElem?_of_mem _ _ hpage
    have hge := (savePagesLoop_get
      (os_path_join "generated_books" ("book_" ++ timestamp)) (pages.zip images) 1 k).1
    rw [hk] at hge
    rcases hpi : (pages.zip images)[k]? with _ | pi
    · rw [hpi] at hge
      simp at hge
    · rw [hpi, Option.map_some'] at hge
      have hpage_eq := Option.some.inj hge
      have hklt : k < (pages.zip images).length := lt_length_of_getElem? _ k pi hpi
      have hpath : findFile
          (os_path_join (save_book_to_folder prompt pages images timestamp now_iso fs).1
            page.image_file)
          (save_book_to_folder prompt pages images timestamp now_iso fs).2.files =
          some (FileContent.png pi.2) := by
        rw [hpage_eq]
        show findFile (os_path_join _ (page_filename (1 + k))) _ = _
        have hne : os_path_join (os_path_join "generated_books" ("book_" ++ timestamp))
            "book_data.json" ≠
            os_path_join (os_path_join "generated_books" ("book_" ++ timestamp))
              (page_filename (1 + k)) := by
          intro he
          exact page_filename_ne_manifest (1 + k) (os_path_join_inj_right _ _ _ he).symm
        rw [h1, h2, findFile, if_neg hne]
        apply findFile_append_unique
        · apply List.mem_reverse.mpr
          have hw := (savePagesLoop_get
            (os_path_join "generated_books" ("book_" ++ timestamp)) (pages.zip images) 1 k).2
          rw [hpi, Option.map_some'] at hw
          exact call_mem_of_getElem _ k _ hw
        · intro w hw hw1
          obtain ⟨j, pj, hpj, hwshape⟩ := savePagesLoop_writes_shape _ _ 1 w
            (List.mem_reverse.mp hw)
          rw [hwshape] at hw1 ⊢
          have hjj : page_filename (1 + j) = page_filename (1 + k) :=
            os_path_join_inj_right _ _ _ hw1
          have hjlt : j < (pages.zip images).length := lt_length_of_getElem? _ j pj hpj
          have hsum : 1 + j = 1 + k :=
            page_filename_inj_small (1 + j) (by omega) (1 + k) (by omega) hjj
          have hjk : j = k := by omega
          rw [hjk, hpi] at hpj
          rw [Option.some.inj hpj]
      rw [← hrpage]
      show (match findFile
          (os_path_join (save_book_to_folder prompt pages images timestamp now_iso fs).1
            page.image_file)
          (save_book_to_folder prompt pages images timestamp now_iso fs).2.files with
        | some (.png img) => some (img.width, img.height)
        | _ => none).isSome = true
      rw [hpath]
      rfl

/-- C9, witness: a concrete 10-page save followed by a read reproduces the
prompt and texts with all ten image files resolving. -/
theorem C9_round_trip_witness :
    ∃ data reports,
      read_book (save_book_to_folder "a brave mouse"
          ["p1", "p2", "p3", "p4", "p5", "p6", "p7", "p8", "p9", "p10"]
          (List.replicate 10 (placeholder "img")) "t" "n" (FS.mk [] [])).1
          (save_book_to_folder "a brave mouse"
            ["p1", "p2", "p3", "p4", "p5", "p6", "p7", "p8", "p9", "p10"]
            (List.replicate 10 (placeholder "img")) "t" "n" (FS.mk [] [])).2 =
        ReadOutcome.loaded data reports ∧
      data.prompt = "a brave mouse" ∧
      data.pages.map BookPage.text =
        ["p1", "p2", "p3", "p4", "p5", "p6", "p7", "p8", "p9", "p10"] ∧
      data.pages.length = 10 ∧
      reports.length = 10 ∧
      reports.map PageReport.text =
        ["p1", "p2", "p3", "p4", "p5", "p6", "p7", "p8", "p9", "p10"] ∧
      ∀ r ∈ reports, r.image_size.isSome = true :=
  C9_round_trip "a brave mouse" "t" "n" (FS.mk [] [])
    ["p1", "p2", "p3", "p4", "p5", "p6", "p7", "p8", "p9", "p10"]
    (List.replicate 10 (placeholder "img")) (by decide) (by decide)

end VibeBooks
